import Mathlib

/-!
Verification of the match-importance service (src/app.py).

The embedding models the Python source directly:
* Python ints become `ℤ`, Python floats become `ℚ` (every float comparison and
  rounding performed by the source is exact at the inputs the claims range
  over, so exact rational arithmetic agrees with IEEE evaluation there);
* Python dicts become insertion-ordered association lists, matching the
  iteration-order guarantees the source relies on;
* code that can raise becomes `Except String`, one error value per Python
  exception site, in the evaluation order of the source.
-/

/-! ### Python-modelling helpers -/

/-- Python `round` (round half to even) on exact rationals. -/
def pyRound (q : ℚ) : ℤ :=
  let f := ⌊q⌋
  let frac := q - f
  if frac < 1/2 then f
  else if 1/2 < frac then f + 1
  else if f % 2 = 0 then f else f + 1

/-- Python `str.lower`, character by character (the ASCII case of the data). -/
def pyLower (s : String) : String := ⟨s.data.map Char.toLower⟩

/-- Contiguous-substring test on character lists. -/
def isSub (n h : List Char) : Bool :=
  (List.range (h.length + 1)).any (fun i => n.isPrefixOf (h.drop i))

/-- Python `needle in hay` on strings. -/
def strIn (needle hay : String) : Bool := isSub needle.data hay.data

/-! ### The importance classifier (src/app.py lines 62-86) -/

/-- The season-stage chain at the top of `match_importance`
(src/app.py lines 64-69). -/
def season_stage (progress : ℚ) : String :=
  if progress < 33/100 then "early season"
  else if progress < 66/100 then "mid-season"
  else "end of the season"

/-- The zone width `max(3, round(total_teams * 0.2))`; the source computes this
same expression twice, as `top_zone` (line 71) and `bottom_zone` (line 72). -/
def zone_size (total_teams : ℤ) : ℤ :=
  max 3 (pyRound ((total_teams : ℚ) * (1/5)))

/-- `match_importance` (src/app.py lines 62-86).  The conditions are inlined
where the source binds them to `top_teams` / `bottom_teams` first; every
returned f-string of the source starts with a leading space, kept verbatim. -/
def match_importance (pos1 pos2 total_teams : ℤ) (progress : ℚ) : String :=
  let stage := season_stage progress
  let top_zone := zone_size total_teams
  let bottom_zone := zone_size total_teams
  if pos1 ≤ top_zone ∧ pos2 ≤ top_zone then
    " Top clash (" ++ stage ++ ")"
  else if pos1 > total_teams - bottom_zone ∧ pos2 > total_teams - bottom_zone then
    " Relegation battle (" ++ stage ++ ")"
  else if (pos1 ≤ top_zone ∧ (pos2 : ℚ) > (total_teams : ℚ) / 2) ∨
          (pos2 ≤ top_zone ∧ (pos1 : ℚ) > (total_teams : ℚ) / 2) then
    " Important for top team (" ++ stage ++ ")"
  else if (pos1 > total_teams - bottom_zone ∧ (pos2 : ℚ) < (total_teams : ℚ) / 2) ∨
          (pos2 > total_teams - bottom_zone ∧ (pos1 : ℚ) < (total_teams : ℚ) / 2) then
    " Important for bottom team (" ++ stage ++ ")"
  else
    " Regular match (" ++ stage ++ ")"

/-- The classifier as the specification words it (section 4.4 of the spec and
claim C1): ordered, mutually exclusive checks where the third and fourth use
"exactly one position" phrasing, and the result is the bare label with the
stage appended in parentheses, without any leading space. -/
def importance_spec (pos1 pos2 total_teams : ℤ) (progress : ℚ) : String :=
  let stage := season_stage progress
  let zoneSize := zone_size total_teams
  let label :=
    if pos1 ≤ zoneSize ∧ pos2 ≤ zoneSize then "Top clash"
    else if pos1 > total_teams - zoneSize ∧ pos2 > total_teams - zoneSize then
      "Relegation battle"
    else if (pos1 ≤ zoneSize ∧ ¬ pos2 ≤ zoneSize ∧ (pos2 : ℚ) > (total_teams : ℚ) / 2) ∨
            (pos2 ≤ zoneSize ∧ ¬ pos1 ≤ zoneSize ∧ (pos1 : ℚ) > (total_teams : ℚ) / 2) then
      "Important for top team"
    else if (pos1 > total_teams - zoneSize ∧ ¬ pos2 > total_teams - zoneSize ∧
               (pos2 : ℚ) < (total_teams : ℚ) / 2) ∨
            (pos2 > total_teams - zoneSize ∧ ¬ pos1 > total_teams - zoneSize ∧
               (pos1 : ℚ) < (total_teams : ℚ) / 2) then
      "Important for bottom team"
    else "Regular match"
  label ++ " (" ++ stage ++ ")"

/-! ### The standings table and team lookup (src/app.py lines 50-57, 89-95) -/

/-- One value of the standings dict: `{"position": ..., "played": ..., "points": ...}`. -/
structure TeamRow where
  position : ℤ
  played : ℤ
  points : ℤ
deriving DecidableEq

/-- `find_team` (src/app.py lines 89-95): lowercase the query, scan the dict
keys in insertion order, return the first key containing the query. -/
def find_team (name : String) (standings : List (String × TeamRow)) : Option String :=
  let n := pyLower name
  (standings.map Prod.fst).find? (fun t => strIn n t)

/-! ### JSON values and the parsing done by get_standings (lines 33-59) -/

/-- JSON values, as returned by `response.json()`. -/
inductive Json where
  | null
  | bool (b : Bool)
  | num (q : ℚ)
  | str (s : String)
  | arr (elements : List Json)
  | obj (fields : List (String × Json))

/-- Python subscript `j[k]` on a parsed JSON value: a KeyError or TypeError
becomes an error value. -/
def jget (j : Json) (k : String) : Except String Json :=
  match j with
  | .obj fields =>
    match fields.find? (fun p => p.1 == k) with
    | some p => .ok p.2
    | none => .error ("KeyError: " ++ k)
  | _ => .error ("TypeError: value is not subscriptable with " ++ k)

/-- Python subscript `j[i]` with an integer index. -/
def jidx (j : Json) (i : ℕ) : Except String Json :=
  match j with
  | .arr xs =>
    match xs.get? i with
    | some x => .ok x
    | none => .error "IndexError: list index out of range"
  | _ => .error "TypeError: value is not indexable"

/-- Iterating a JSON value as a Python list. -/
def asArr : Json → Except String (List Json)
  | .arr xs => .ok xs
  | _ => .error "TypeError: value is not iterable"

/-- Using a JSON value as a Python number (summation in line 46). -/
def asNum : Json → Except String ℚ
  | .num q => .ok q
  | _ => .error "TypeError: unsupported operand type for +"

/-- Using a JSON value as an integer field of the data model (position,
playedGames, points are integers in the upstream contract). -/
def asInt : Json → Except String ℤ
  | .num q => if q.den = 1 then .ok q.num else .error "TypeError: not an integer"
  | _ => .error "TypeError: expected an integer"

/-- Using a JSON value as a Python string (`.lower()` in line 51). -/
def asStr : Json → Except String String
  | .str s => .ok s
  | _ => .error "AttributeError: value has no attribute lower"

/-- Error-propagating map over a row list, stopping at the first failing row,
as Python generator evaluation does. -/
def mapE (f : Json → Except String α) : List Json → Except String (List α)
  | [] => .ok []
  | x :: xs =>
    match f x with
    | .error e => .error e
    | .ok a =>
      match mapE f xs with
      | .error e => .error e
      | .ok rest => .ok (a :: rest)

/-- Reading `team["playedGames"]` for the sum in line 46. -/
def played_of (j : Json) : Except String ℚ :=
  match jget j "playedGames" with
  | .error e => .error e
  | .ok v => asNum v

/-- One entry of the dict comprehension in lines 50-57: the key is the
lowercased display name, the value the position/played/points of the row. -/
def parseEntry (j : Json) : Except String (String × TeamRow) := do
  let teamObj ← jget j "team"
  let nameJ ← jget teamObj "name"
  let name ← asStr nameJ
  let pos ← asInt (← jget j "position")
  let played ← asInt (← jget j "playedGames")
  let pts ← asInt (← jget j "points")
  return (pyLower name, ⟨pos, played, pts⟩)

/-- Python dict insertion: an existing key keeps its position and takes the
new value, a new key is appended at the end. -/
def dictInsert (d : List (String × TeamRow)) (kv : String × TeamRow) :
    List (String × TeamRow) :=
  if d.any (fun p => p.1 == kv.1) then
    d.map (fun p => if p.1 == kv.1 then kv else p)
  else d ++ [kv]

/-- The dict built by the comprehension in lines 50-57. -/
def buildDict (entries : List (String × TeamRow)) : List (String × TeamRow) :=
  entries.foldl dictInsert []

/-- Lines 45-59 of `get_standings`, applied to the parsed row list
`data["standings"][0]["table"]`: team count, average games played, season
progress, and the standings dict.  The two zero tests mark exactly the points
where the Python divisions raise `ZeroDivisionError`. -/
def build_snapshot (rows : List Json) :
    Except String (List (String × TeamRow) × ℤ × ℚ) :=
  let total_teams : ℤ := rows.length
  match mapE played_of rows with
  | .error e => .error e
  | .ok played =>
    if total_teams = 0 then .error "ZeroDivisionError: division by zero"
    else
      let avg_played : ℚ := played.sum / (total_teams : ℚ)
      let total_games_per_team : ℤ := (total_teams - 1) * 2
      if total_games_per_team = 0 then
        .error "ZeroDivisionError: float division by zero"
      else
        let progress : ℚ := avg_played / (total_games_per_team : ℚ)
        match mapE parseEntry rows with
        | .error e => .error e
        | .ok entries => .ok (buildDict entries, total_teams, progress)

/-- The HTTP response seen by `get_standings`: the `ok` flag and status/text of
`requests`, and the outcome of `response.json()`. -/
structure HttpResponse where
  ok : Bool
  status : ℤ
  text : String
  body : Except String Json

/-- Outcome of the outbound call `requests.get(...)`: either the call itself
raised (network failure) or a response came back. -/
inductive FetchResult where
  | exn (msg : String)
  | resp (r : HttpResponse)

/-- `get_standings` (src/app.py lines 33-59) over a fetch outcome. -/
def get_standings (fetch : FetchResult) :
    Except String (List (String × TeamRow) × ℤ × ℚ) :=
  match fetch with
  | .exn e => .error e
  | .resp r =>
    if !r.ok then
      .error ("API request failed: " ++ toString r.status ++ " - " ++ r.text)
    else
      match r.body with
      | .error e => .error e
      | .ok data =>
        match jget data "standings" with
        | .error e => .error e
        | .ok s =>
          match jidx s 0 with
          | .error e => .error e
          | .ok first =>
            match jget first "table" with
            | .error e => .error e
            | .ok t =>
              match asArr t with
              | .error e => .error e
              | .ok rows => build_snapshot rows

/-! ### The request handler (src/app.py lines 102-143) -/

/-- Python truthiness test `not t` for an optional string: `None` and the
empty string are falsy. -/
def pyFalsy : Option String → Bool
  | none => true
  | some s => s == ""

/-- Dict lookup `standings[k]`; `find_team` only returns keys present in the
dict, so the default row is never reached by the handler. -/
def lookupD (tbl : List (String × TeamRow)) (k : String) : TeamRow :=
  ((tbl.find? (fun p => p.1 == k)).map Prod.snd).getD ⟨0, 0, 0⟩

/-- The percent string of line 142 built from the exact progress value. -/
def formatPct (p : ℚ) : String :=
  let t := pyRound (p * 1000)
  let a := t.natAbs
  (if t < 0 then "-" else "") ++ toString (a / 10) ++ "." ++ toString (a % 10) ++ "%"

/-- The 200 payload of lines 137-143. -/
structure MatchResult where
  league : String
  team1_name : String
  team1_position : ℤ
  team1_points : ℤ
  team2_name : String
  team2_position : ℤ
  team2_points : ℤ
  importance : String
  season_progress : String
deriving DecidableEq

/-- A JSON response body of the handler. -/
inductive RespBody where
  | err (msg : String)
  | notFound (msg : String) (available_teams : List String)
  | ok (result : MatchResult)
deriving DecidableEq

/-- An HTTP response of the handler: status code and JSON body. -/
structure Response where
  status : ℤ
  body : RespBody
deriving DecidableEq

/-- Constructing the success payload (lines 130-143). -/
def mkMatchResult (league k1 k2 : String) (tbl : List (String × TeamRow))
    (total_teams : ℤ) (progress : ℚ) : MatchResult :=
  let r1 := lookupD tbl k1
  let r2 := lookupD tbl k2
  { league := league
    team1_name := k1
    team1_position := r1.position
    team1_points := r1.points
    team2_name := k2
    team2_position := r2.position
    team2_points := r2.points
    importance := match_importance r1.position r2.position total_teams progress
    season_progress := formatPct progress }

/-- `get_match_info` (src/app.py lines 102-143): the whole request handler for
`GET /matchinfo`, over the outcome of the standings fetch. -/
def get_match_info (league team1 team2 : String) (fetch : FetchResult) : Response :=
  match get_standings fetch with
  | .error e => ⟨400, .err e⟩
  | .ok (standings, total_teams, progress) =>
    let t1 := find_team team1 standings
    let t2 := find_team team2 standings
    if pyFalsy t1 || pyFalsy t2 then
      ⟨404, .notFound "One or both teams were not found." (standings.map Prod.fst)⟩
    else
      ⟨200, .ok (mkMatchResult league (t1.getD "") (t2.getD "")
                    standings total_teams progress)⟩

/-- The season-progress formula of lines 45-48 as a function of the list of
played-games counts (team count = list length). -/
def season_progress (played : List ℤ) : ℚ :=
  ((played.sum : ℚ) / (played.length : ℚ)) / (((played.length : ℚ) - 1) * 2)

/-! ### Helper lemmas -/

lemma stage_cases (pr : ℚ) :
    season_stage pr = "early season" ∨ season_stage pr = "mid-season" ∨
      season_stage pr = "end of the season" := by
  unfold season_stage
  split_ifs <;> simp

/-! ### Claim C4: the season-stage thresholds -/

/-- Claim C4: the season-stage label follows the fixed thresholds of lines
64-69: progress below 33/100 gives "early season", otherwise below 66/100
gives "mid-season", otherwise "end of the season"; progress exactly 33/100 is
classified as "mid-season". -/
theorem season_stage_thresholds (pr : ℚ) :
    (pr < 33/100 → season_stage pr = "early season")
  ∧ (¬ pr < 33/100 → pr < 66/100 → season_stage pr = "mid-season")
  ∧ (¬ pr < 33/100 → ¬ pr < 66/100 → season_stage pr = "end of the season")
  ∧ season_stage (33/100) = "mid-season" := by
  refine ⟨?_, ?_, ?_, ?_⟩
  · intro h; simp [season_stage, h]
  · intro h1 h2; simp [season_stage, h1, h2]
  · intro h1 h2; simp [season_stage, h1, h2]
  · norm_num [season_stage]

/-- Witness for C4 at concrete progress values. -/
theorem season_stage_thresholds_witness :
    season_stage 0 = "early season"
  ∧ season_stage (1/2) = "mid-season"
  ∧ season_stage 1 = "end of the season"
  ∧ season_stage (33/100) = "mid-season" :=
  ⟨(season_stage_thresholds 0).1 (by simp),
   (season_stage_thresholds (1/2)).2.1 (by norm_num) (by norm_num),
   (season_stage_thresholds 1).2.2.1 (by norm_num) (by norm_num),
   (season_stage_thresholds 0).2.2.2⟩

/-! ### Claim C5: the concrete 20-team examples -/

/-- Claim C5: with 20 teams the zone width is 4, and for any progress value
positions (1,2) give the Top clash label, (19,20) the Relegation battle label,
(1,15) the Important for top team label (15 > 10), and (10,11) the Regular
match label, each with the stage appended. -/
theorem classifier_examples_20 (pr : ℚ) :
    zone_size 20 = 4
  ∧ match_importance 1 2 20 pr = " Top clash (" ++ season_stage pr ++ ")"
  ∧ match_importance 19 20 20 pr = " Relegation battle (" ++ season_stage pr ++ ")"
  ∧ match_importance 1 15 20 pr = " Important for top team (" ++ season_stage pr ++ ")"
  ∧ match_importance 10 11 20 pr = " Regular match (" ++ season_stage pr ++ ")" := by
  have hz : zone_size 20 = 4 := by norm_num [zone_size, pyRound]
  refine ⟨hz, ?_, ?_, ?_, ?_⟩ <;>
    · simp only [match_importance, hz]
      norm_num

/-! ### Claim C6: symmetry of the classifier -/

/-- Claim C6: the classifier gives the same label when its two position
arguments are swapped. -/
theorem match_importance_symm (pos1 pos2 total_teams : ℤ) (progress : ℚ) :
    match_importance pos1 pos2 total_teams progress =
      match_importance pos2 pos1 total_teams progress := by
  simp only [match_importance]
  split_ifs
  all_goals try rfl
  all_goals itauto

/-! ### Claim C1: the classifier against the specified algorithm -/

/-- Claim C1 (amended): the classifier applies exactly the ordered checks of
the claim, composing the label with the stage in parentheses, except that
every returned string carries one leading space before the label text. -/
theorem match_importance_spec_refinement (pos1 pos2 total_teams : ℤ) (progress : ℚ) :
    match_importance pos1 pos2 total_teams progress =
      " " ++ importance_spec pos1 pos2 total_teams progress := by
  rcases stage_cases progress with h | h | h <;>
    · simp only [match_importance, importance_spec, h]
      split_ifs
      all_goals try rfl
      all_goals itauto

/-- Claim C1 counterexample: at positions (1,2), 20 teams, progress 1/2, the
returned string is not exactly the label with the stage appended: it carries a
leading space. -/
theorem match_importance_leading_space_cex :
    match_importance 1 2 20 (1/2) = " Top clash (mid-season)"
  ∧ match_importance 1 2 20 (1/2) ≠ "Top clash (mid-season)" := by
  have hz : zone_size 20 = 4 := by norm_num [zone_size, pyRound]
  have hs : season_stage (1/2) = "mid-season" := by norm_num [season_stage]
  have h : match_importance 1 2 20 (1/2) = " Top clash (mid-season)" := by
    simp only [match_importance, hz, hs]
    norm_num
    decide
  exact ⟨h, by rw [h]; decide⟩

/-! ### Claim C3: the team resolver -/

lemma find?_eq_some_decomp {α : Type} (p : α → Bool) :
    ∀ (l : List α) (a : α), l.find? p = some a →
      ∃ l1 l2, l = l1 ++ a :: l2 ∧ p a = true ∧ ∀ x ∈ l1, p x = false := by
  intro l
  induction l with
  | nil => intro a h; simp [List.find?] at h
  | cons b t ih =>
    intro a h
    by_cases hb : p b
    · rw [List.find?_cons_of_pos _ hb] at h
      obtain rfl : b = a := by injection h
      exact ⟨[], t, by simp, hb, by simp⟩
    · rw [List.find?_cons_of_neg _ hb] at h
      obtain ⟨l1, l2, rfl, hpa, hall⟩ := ih a h
      refine ⟨b :: l1, l2, rfl, hpa, ?_⟩
      intro x hx
      rcases List.mem_cons.mp hx with rfl | hx
      · exact Bool.eq_false_iff.mpr hb
      · exact hall x hx

/-- Claim C3: the resolver lowercases the query and returns the first table
key of which the lowered query is a substring; it returns none exactly when no
key contains it; and the result depends on the query only through its
lowercasing, so it is independent of the query casing. -/
theorem find_team_spec (q : String) (tbl : List (String × TeamRow)) :
    (∀ k, find_team q tbl = some k →
       ∃ pre post, tbl.map Prod.fst = pre ++ k :: post
         ∧ strIn (pyLower q) k = true
         ∧ ∀ x ∈ pre, strIn (pyLower q) x = false)
  ∧ (find_team q tbl = none ↔ ∀ k ∈ tbl.map Prod.fst, strIn (pyLower q) k = false)
  ∧ (∀ q2, pyLower q2 = pyLower q → find_team q2 tbl = find_team q tbl) := by
  refine ⟨?_, ?_, ?_⟩
  · intro k h
    exact find?_eq_some_decomp _ _ _ h
  · rw [find_team]
    rw [List.find?_eq_none]
    constructor
    · intro h k hk
      exact Bool.eq_false_iff.mpr (h k hk)
    · intro h k hk
      exact Bool.eq_false_iff.mp (h k hk)
  · intro q2 h
    rw [find_team, find_team, h]

/-- Witness for C3 on a concrete two-team table: upper- and lowercase queries
resolve identically, a substring query hits the first containing key, and an
unmatched query yields none. -/
theorem find_team_spec_witness :
    find_team "ARSENAL" [("liverpool", (⟨3, 4, 5⟩ : TeamRow)), ("arsenal fc", ⟨1, 2, 3⟩)] =
      find_team "arsenal" [("liverpool", (⟨3, 4, 5⟩ : TeamRow)), ("arsenal fc", ⟨1, 2, 3⟩)]
  ∧ find_team "arsenal" [("liverpool", (⟨3, 4, 5⟩ : TeamRow)), ("arsenal fc", ⟨1, 2, 3⟩)] =
      some "arsenal fc"
  ∧ find_team "zzz" [("liverpool", (⟨3, 4, 5⟩ : TeamRow)), ("arsenal fc", ⟨1, 2, 3⟩)] = none :=
  ⟨(find_team_spec "arsenal" _).2.2 "ARSENAL" (by decide),
   by decide,
   ((find_team_spec "zzz" _).2.1).mpr (by decide)⟩

/-! ### Claim C9: season-progress properties -/

/-- Claim C9: for at least two teams, the progress formula of lines 45-48 is
monotone under pointwise increases of the played-games list, is nonnegative
when no count is negative, is at most 1 when every count is at most the double
round-robin total (length - 1) * 2, and exceeds 1 only when some count
exceeds that total. -/
theorem season_progress_props (played played2 : List ℤ) (h2 : 2 ≤ played.length) :
    (List.Forall₂ (· ≤ ·) played played2 → season_progress played ≤ season_progress played2)
  ∧ ((∀ x ∈ played, 0 ≤ x) → 0 ≤ season_progress played)
  ∧ ((∀ x ∈ played, x ≤ ((played.length : ℤ) - 1) * 2) → season_progress played ≤ 1)
  ∧ (1 < season_progress played → ∃ x ∈ played, ((played.length : ℤ) - 1) * 2 < x) := by
  have hn2 : (2:ℚ) ≤ (played.length : ℚ) := by exact_mod_cast h2
  have hn : (0:ℚ) < (played.length : ℚ) := by linarith
  have hd : (0:ℚ) < ((played.length : ℚ) - 1) * 2 := by linarith
  have hc : (∀ x ∈ played, x ≤ ((played.length : ℤ) - 1) * 2) →
      season_progress played ≤ 1 := by
    intro hb
    have hs : played.sum ≤ played.length • (((played.length : ℤ) - 1) * 2) :=
      List.sum_le_card_nsmul played _ hb
    rw [nsmul_eq_mul] at hs
    have hsq : (played.sum : ℚ) ≤ (played.length : ℚ) * (((played.length : ℚ) - 1) * 2) := by
      exact_mod_cast hs
    rw [season_progress, div_le_one hd, div_le_iff hn]
    nlinarith [hsq]
  refine ⟨?_, ?_, hc, ?_⟩
  · intro hf
    have hlen : played.length = played2.length := hf.length_eq
    have hsq : (played.sum : ℚ) ≤ (played2.sum : ℚ) := by exact_mod_cast hf.sum_le_sum
    rw [season_progress, season_progress, ← hlen]
    exact (div_le_div_right hd).mpr ((div_le_div_right hn).mpr hsq)
  · intro hpos
    have hsq : (0:ℚ) ≤ (played.sum : ℚ) := by exact_mod_cast List.sum_nonneg hpos
    rw [season_progress]
    exact div_nonneg (div_nonneg hsq hn.le) hd.le
  · intro h1
    by_contra hno
    push_neg at hno
    exact absurd (hc hno) (not_le.mpr h1)

/-- Witness for C9 on the concrete lists [0, 2] and [1, 2]. -/
theorem season_progress_props_witness :
    season_progress [0, 2] ≤ season_progress [1, 2]
  ∧ 0 ≤ season_progress [0, 2]
  ∧ season_progress [0, 2] ≤ 1 :=
  ⟨(season_progress_props [0, 2] [1, 2] (by decide)).1
     (List.Forall₂.cons (by decide) (List.Forall₂.cons (by decide) List.Forall₂.nil)),
   (season_progress_props [0, 2] [1, 2] (by decide)).2.1 (by decide),
   (season_progress_props [0, 2] [1, 2] (by decide)).2.2.1 (by decide)⟩

/-! ### Helper lemmas about row parsing and dict building -/

lemma mapE_ok_length {α : Type} (f : Json → Except String α) :
    ∀ (l : List Json) (l2 : List α), mapE f l = .ok l2 → l2.length = l.length := by
  intro l
  induction l with
  | nil =>
    intro l2 h
    simp only [mapE] at h
    cases h
    rfl
  | cons x xs ih =>
    intro l2 h
    simp only [mapE] at h
    cases hx : f x with
    | error e => rw [hx] at h; cases h
    | ok a =>
      rw [hx] at h
      cases hr : mapE f xs with
      | error e => rw [hr] at h; cases h
      | ok rest =>
        rw [hr] at h
        cases h
        simp [ih rest hr]

lemma mapE_ok_mem {α : Type} (f : Json → Except String α) :
    ∀ (l : List Json) (l2 : List α), mapE f l = .ok l2 →
      ∀ b ∈ l2, ∃ a ∈ l, f a = .ok b := by
  intro l
  induction l with
  | nil =>
    intro l2 h b hb
    simp only [mapE] at h
    cases h
    simp at hb
  | cons x xs ih =>
    intro l2 h b hb
    simp only [mapE] at h
    cases hx : f x with
    | error e => rw [hx] at h; cases h
    | ok a =>
      rw [hx] at h
      cases hr : mapE f xs with
      | error e => rw [hr] at h; cases h
      | ok rest =>
        rw [hr] at h
        cases h
        rcases List.mem_cons.mp hb with rfl | hb2
        · exact ⟨x, List.mem_cons_self x xs, hx⟩
        · obtain ⟨a2, ha2, hfa2⟩ := ih rest hr b hb2
          exact ⟨a2, List.mem_cons_of_mem x ha2, hfa2⟩

lemma dictInsert_mem (d : List (String × TeamRow)) (kv p : String × TeamRow)
    (hp : p ∈ dictInsert d kv) : p ∈ d ∨ p = kv := by
  unfold dictInsert at hp
  split_ifs at hp with hc
  · rcases List.mem_map.mp hp with ⟨q, hq, hqe⟩
    by_cases h : (q.1 == kv.1) = true
    · rw [if_pos h] at hqe
      exact Or.inr hqe.symm
    · rw [if_neg h] at hqe
      exact Or.inl (hqe ▸ hq)
  · rcases List.mem_append.mp hp with h | h
    · exact Or.inl h
    · exact Or.inr (by simpa using h)

lemma foldl_dictInsert_mem :
    ∀ (es acc : List (String × TeamRow)) (p : String × TeamRow),
      p ∈ es.foldl dictInsert acc → p ∈ acc ∨ p ∈ es := by
  intro es
  induction es with
  | nil => intro acc p h; exact Or.inl h
  | cons kv rest ih =>
    intro acc p h
    rcases ih (dictInsert acc kv) p h with h2 | h2
    · rcases dictInsert_mem acc kv p h2 with h3 | h3
      · exact Or.inl h3
      · exact Or.inr (by simp [h3])
    · exact Or.inr (List.mem_cons_of_mem _ h2)

lemma foldl_dictInsert_eq_append :
    ∀ (es acc : List (String × TeamRow)),
      ((acc ++ es).map Prod.fst).Nodup → es.foldl dictInsert acc = acc ++ es := by
  intro es
  induction es with
  | nil => intro acc _; simp
  | cons kv rest ih =>
    intro acc h
    have hnod : (acc.map Prod.fst ++ kv.1 :: rest.map Prod.fst).Nodup := by
      simpa using h
    have hdisj := (List.nodup_append.mp hnod).2.2
    have hnotin : kv.1 ∉ acc.map Prod.fst := by
      intro hmem
      exact hdisj hmem (List.mem_cons_self _ _)
    have hk : ¬ acc.any (fun p => p.1 == kv.1) = true := by
      intro hc
      rcases List.any_eq_true.mp hc with ⟨q, hq, hqe⟩
      have hqk : q.1 = kv.1 := by simpa using hqe
      exact hnotin (List.mem_map.mpr ⟨q, hq, hqk⟩)
    have hins : dictInsert acc kv = acc ++ [kv] := by
      rw [dictInsert, if_neg hk]
    rw [List.foldl_cons, hins, ih (acc ++ [kv]) (by simpa using h)]
    simp

/-! ### Claim C7: what get_standings returns on a parsed table -/

/-- Claim C7 (amended): on success the returned team count is the number of
upstream rows (`len(standings)` in line 45, not the size of the built dict);
every entry of the table comes from some row, keyed by the lowercased
display name of that row with the position/played/points of that row; and when the lowercased
names are pairwise distinct the table has exactly one entry per row, in row
order, so only then does the count also equal the table size. -/
theorem snapshot_table_spec (rows : List Json) (tbl : List (String × TeamRow))
    (n : ℤ) (pr : ℚ) (h : build_snapshot rows = .ok (tbl, n, pr)) :
    n = rows.length
  ∧ (∀ kv ∈ tbl, ∃ j ∈ rows, parseEntry j = .ok kv)
  ∧ (∀ entries, mapE parseEntry rows = .ok entries →
       (entries.map Prod.fst).Nodup → tbl = entries ∧ tbl.length = rows.length) := by
  cases hp : mapE played_of rows with
  | error e =>
    simp only [build_snapshot, hp] at h
    cases h
  | ok played =>
    simp only [build_snapshot, hp] at h
    by_cases h0 : ((rows.length : ℤ)) = 0
    · rw [if_pos h0] at h; cases h
    · rw [if_neg h0] at h
      by_cases h1 : (((rows.length : ℤ)) - 1) * 2 = 0
      · rw [if_pos h1] at h; cases h
      · rw [if_neg h1] at h
        cases hq : mapE parseEntry rows with
        | error e =>
          simp only [hq] at h
          cases h
        | ok entries =>
          simp only [hq, Except.ok.injEq, Prod.mk.injEq] at h
          obtain ⟨htbl, hn, -⟩ := h
          subst htbl
          subst hn
          refine ⟨rfl, ?_, ?_⟩
          · intro kv hkv
            rcases foldl_dictInsert_mem entries [] kv hkv with h2 | h2
            · simp at h2
            · exact mapE_ok_mem parseEntry rows entries hq kv h2
          · intro entries2 hq2 hnd
            injection hq2 with h3
            subst h3
            have heq : buildDict entries = entries := by
              rw [buildDict]
              simpa using foldl_dictInsert_eq_append entries [] (by simpa using hnd)
            rw [heq]
            exact ⟨rfl, mapE_ok_length parseEntry rows entries hq⟩

/-- A concrete upstream standings row, shaped as the provider returns it. -/
def rowJson (name : String) (pos played pts : ℤ) : Json :=
  Json.obj [("position", Json.num pos), ("playedGames", Json.num played),
            ("points", Json.num pts), ("team", Json.obj [("name", Json.str name)])]

/-- The standings dict of a snapshot result (empty on error). -/
def snapshotTable (r : Except String (List (String × TeamRow) × ℤ × ℚ)) :
    List (String × TeamRow) :=
  match r with
  | .ok (tbl, _, _) => tbl
  | .error _ => []

/-- The team count of a snapshot result (0 on error). -/
def snapshotTotal (r : Except String (List (String × TeamRow) × ℤ × ℚ)) : ℤ :=
  match r with
  | .ok (_, n, _) => n
  | .error _ => 0

/-- Whether a snapshot result is a success. -/
def snapshotIsOk : Except String (List (String × TeamRow) × ℤ × ℚ) → Bool
  | .ok _ => true
  | .error _ => false

/-- Claim C7 counterexample: two rows whose display names lowercase to the
same key.  The fetch succeeds with totalTeams = 2, but the built table has a
single entry (first-insertion position, last value), so totalTeams differs
from the number of entries of the constructed table. -/
theorem snapshot_total_teams_cex :
    snapshotIsOk (build_snapshot [rowJson "Arsenal" 1 10 30, rowJson "ARSENAL" 2 10 20]) = true
  ∧ snapshotTotal (build_snapshot [rowJson "Arsenal" 1 10 30, rowJson "ARSENAL" 2 10 20]) = 2
  ∧ snapshotTable (build_snapshot [rowJson "Arsenal" 1 10 30, rowJson "ARSENAL" 2 10 20]) =
      [("arsenal", ⟨2, 10, 20⟩)]
  ∧ (snapshotTable (build_snapshot
        [rowJson "Arsenal" 1 10 30, rowJson "ARSENAL" 2 10 20])).length = 1 := by
  decide

/-- Witness for C7 on two rows with distinct lowercased names. -/
theorem snapshot_table_spec_witness :
    (2 : ℤ) = (([rowJson "Arsenal" 1 10 30, rowJson "Chelsea" 2 8 20] : List Json).length : ℤ)
  ∧ parseEntry (rowJson "Arsenal" 1 10 30) = .ok ("arsenal", ⟨1, 10, 30⟩) := by
  refine ⟨?_, by rfl⟩
  have h2 : snapshotTotal (build_snapshot [rowJson "Arsenal" 1 10 30, rowJson "Chelsea" 2 8 20]) = 2 := by
    decide
  cases hb : build_snapshot [rowJson "Arsenal" 1 10 30, rowJson "Chelsea" 2 8 20] with
  | error e =>
    have hok : snapshotIsOk (build_snapshot
        [rowJson "Arsenal" 1 10 30, rowJson "Chelsea" 2 8 20]) = true := by decide
    rw [hb] at hok
    simp [snapshotIsOk] at hok
  | ok snap =>
    obtain ⟨tbl, n, pr⟩ := snap
    have hn := (snapshot_table_spec _ tbl n pr hb).1
    rw [hb] at h2
    simp only [snapshotTotal] at h2
    rw [← h2]
    exact hn

/-! ### Claim C2: the responses of the request handler -/

/-- A successful upstream HTTP response whose JSON body wraps the given rows
exactly as the provider does: standings[0].table = rows. -/
def fetchOf (rows : List Json) : FetchResult :=
  .resp ⟨true, 200, "",
    .ok (Json.obj [("standings", Json.arr [Json.obj [("table", Json.arr rows)]])])⟩

/-- Claim C2 (amended): a failed fetch gives 400 with the error text; when the
fetch succeeds, the handler gives the 404 body with all table keys whenever
either query resolves falsily (to no key, or to the empty-string key, which
the Python truthiness test also rejects), and otherwise the 200 MatchResult. -/
theorem handler_responses (league team1 team2 : String) (fetch : FetchResult) :
    (∀ e, get_standings fetch = .error e →
        get_match_info league team1 team2 fetch = ⟨400, .err e⟩)
  ∧ (∀ tbl n pr, get_standings fetch = .ok (tbl, n, pr) →
      ((pyFalsy (find_team team1 tbl) || pyFalsy (find_team team2 tbl)) = true →
         get_match_info league team1 team2 fetch =
           ⟨404, .notFound "One or both teams were not found." (tbl.map Prod.fst)⟩)
      ∧ (∀ k1 k2, find_team team1 tbl = some k1 → find_team team2 tbl = some k2 →
           k1 ≠ "" → k2 ≠ "" →
           get_match_info league team1 team2 fetch =
             ⟨200, .ok (mkMatchResult league k1 k2 tbl n pr)⟩)) := by
  refine ⟨?_, ?_⟩
  · intro e he
    simp only [get_match_info, he]
  · intro tbl n pr hok
    refine ⟨?_, ?_⟩
    · intro hcond
      simp only [get_match_info, hok, hcond, if_true]
    · intro k1 k2 h1 h2 hk1 hk2
      have hp1 : pyFalsy (some k1) = false := by simp [pyFalsy, hk1]
      have hp2 : pyFalsy (some k2) = false := by simp [pyFalsy, hk2]
      simp only [get_match_info, hok, h1, h2]
      simp [hp1, hp2]

/-- Witness for C2: a network failure maps to the 400 error body, and on a
concrete two-team table a missing team gives status 404 while two resolved
teams give status 200. -/
theorem handler_responses_witness :
    get_match_info "PL" "arsenal" "chelsea" (FetchResult.exn "boom") = ⟨400, .err "boom"⟩
  ∧ (get_match_info "PL" "arsenal" "zzz"
      (fetchOf [rowJson "Arsenal" 1 10 30, rowJson "Chelsea" 2 8 20])).status = 404
  ∧ (get_match_info "PL" "arsenal" "chelsea"
      (fetchOf [rowJson "Arsenal" 1 10 30, rowJson "Chelsea" 2 8 20])).status = 200 := by
  refine ⟨(handler_responses "PL" "arsenal" "chelsea" (.exn "boom")).1 "boom" rfl, ?_, ?_⟩
  · cases hb : get_standings (fetchOf [rowJson "Arsenal" 1 10 30, rowJson "Chelsea" 2 8 20]) with
    | error e =>
      have hok : snapshotIsOk (get_standings
          (fetchOf [rowJson "Arsenal" 1 10 30, rowJson "Chelsea" 2 8 20])) = true := by decide
      rw [hb] at hok
      simp [snapshotIsOk] at hok
    | ok snap =>
      obtain ⟨tbl, n, pr⟩ := snap
      have htbl : tbl = [("arsenal", ⟨1, 10, 30⟩), ("chelsea", ⟨2, 8, 20⟩)] := by
        have h3 : snapshotTable (get_standings
            (fetchOf [rowJson "Arsenal" 1 10 30, rowJson "Chelsea" 2 8 20])) =
            [("arsenal", ⟨1, 10, 30⟩), ("chelsea", ⟨2, 8, 20⟩)] := by decide
        rw [hb] at h3
        simpa [snapshotTable] using h3
      have hcond : (pyFalsy (find_team "arsenal" tbl) || pyFalsy (find_team "zzz" tbl)) = true := by
        rw [htbl]; decide
      have h404 := ((handler_responses "PL" "arsenal" "zzz" _).2 tbl n pr hb).1 hcond
      rw [h404]
  · cases hb : get_standings (fetchOf [rowJson "Arsenal" 1 10 30, rowJson "Chelsea" 2 8 20]) with
    | error e =>
      have hok : snapshotIsOk (get_standings
          (fetchOf [rowJson "Arsenal" 1 10 30, rowJson "Chelsea" 2 8 20])) = true := by decide
      rw [hb] at hok
      simp [snapshotIsOk] at hok
    | ok snap =>
      obtain ⟨tbl, n, pr⟩ := snap
      have htbl : tbl = [("arsenal", ⟨1, 10, 30⟩), ("chelsea", ⟨2, 8, 20⟩)] := by
        have h3 : snapshotTable (get_standings
            (fetchOf [rowJson "Arsenal" 1 10 30, rowJson "Chelsea" 2 8 20])) =
            [("arsenal", ⟨1, 10, 30⟩), ("chelsea", ⟨2, 8, 20⟩)] := by decide
        rw [hb] at h3
        simpa [snapshotTable] using h3
      have h1 : find_team "arsenal" tbl = some "arsenal" := by rw [htbl]; decide
      have h2 : find_team "chelsea" tbl = some "chelsea" := by rw [htbl]; decide
      have h200 := ((handler_responses "PL" "arsenal" "chelsea" _).2 tbl n pr hb).2
        "arsenal" "chelsea" h1 h2 (by decide) (by decide)
      rw [h200]

/-- Claim C2 counterexample: with an upstream row whose display name is the
empty string, both queries resolve to table keys, yet the handler returns the
404 body, because Python truthiness treats the empty-string key as a failed
lookup. -/
theorem handler_empty_key_cex :
    find_team "" [("", (⟨1, 4, 9⟩ : TeamRow)), ("x", ⟨2, 4, 9⟩)] = some ""
  ∧ find_team "x" [("", (⟨1, 4, 9⟩ : TeamRow)), ("x", ⟨2, 4, 9⟩)] = some "x"
  ∧ snapshotIsOk (get_standings (fetchOf [rowJson "" 1 4 9, rowJson "X" 2 4 9])) = true
  ∧ snapshotTable (get_standings (fetchOf [rowJson "" 1 4 9, rowJson "X" 2 4 9])) =
      [("", ⟨1, 4, 9⟩), ("x", ⟨2, 4, 9⟩)]
  ∧ get_match_info "PL" "" "x" (fetchOf [rowJson "" 1 4 9, rowJson "X" 2 4 9]) =
      ⟨404, .notFound "One or both teams were not found." ["", "x"]⟩ := by
  decide

/-! ### Claim C8: one-row standings do not crash the handler -/

/-- Claim C8: when the upstream table has exactly one row, the zero divisor
(total_teams - 1) * 2 makes get_standings fail inside the try block of the handler
(or an earlier parse error does), so the handler answers 400 with an error
body instead of propagating the exception. -/
theorem single_row_returns_error (league team1 team2 : String) (r : Json) :
    ∃ msg, get_match_info league team1 team2 (fetchOf [r]) = ⟨400, .err msg⟩ := by
  have hred : get_standings (fetchOf [r]) = build_snapshot [r] := rfl
  have herr : ∃ e, build_snapshot [r] = .error e := by
    cases hp : played_of r with
    | error e => exact ⟨e, by simp [build_snapshot, mapE, hp]⟩
    | ok q =>
      refine ⟨"ZeroDivisionError: float division by zero", ?_⟩
      simp [build_snapshot, mapE, hp]
  obtain ⟨e, he⟩ := herr
  rw [he] at hred
  exact ⟨e, by simp only [get_match_info, hred]⟩

/-! ### Claim C10: empty queries resolve to the first key -/

lemma isSub_nil (h : List Char) : isSub [] h = true := by
  simp [isSub, List.isPrefixOf]
  exact ⟨0, by omega⟩

/-- Claim C10 (amended): on any non-empty table the resolver answers an empty
query with the first key (the empty string is a substring of every key); a
request with both team parameters empty is answered 200, provided the first
key is not itself the empty string — an empty first key is falsy in Python
and still produces the 404 branch, and a non-empty other query can also still
fail to resolve and produce it. -/
theorem empty_query_resolves_first :
    (∀ (k0 : String) (r0 : TeamRow) (rest : List (String × TeamRow)),
        find_team "" ((k0, r0) :: rest) = some k0)
  ∧ (∀ (league : String) (fetch : FetchResult) (k0 : String) (r0 : TeamRow)
        (rest : List (String × TeamRow)) (n : ℤ) (pr : ℚ),
        get_standings fetch = .ok ((k0, r0) :: rest, n, pr) → k0 ≠ "" →
        (get_match_info league "" "" fetch).status = 200) := by
  have hfind : ∀ (k0 : String) (r0 : TeamRow) (rest : List (String × TeamRow)),
      find_team "" ((k0, r0) :: rest) = some k0 := by
    intro k0 r0 rest
    have hsub : strIn (pyLower "") k0 = true := isSub_nil k0.data
    simp [find_team, List.find?, hsub]
  refine ⟨hfind, ?_⟩
  intro league fetch k0 r0 rest n pr hok hk0
  have hp0 : pyFalsy (some k0) = false := by simp [pyFalsy, hk0]
  simp only [get_match_info, hok, hfind k0 r0 rest]
  simp [hp0]

/-- Witness for C10 on a concrete two-team table with both queries empty. -/
theorem empty_query_resolves_first_witness :
    find_team "" [("aa", (⟨1, 4, 9⟩ : TeamRow)), ("bb", ⟨2, 4, 9⟩)] = some "aa"
  ∧ (get_match_info "PL" "" "" (fetchOf [rowJson "AA" 1 4 9, rowJson "BB" 2 4 9])).status = 200 := by
  constructor
  · exact empty_query_resolves_first.1 "aa" ⟨1, 4, 9⟩ [("bb", ⟨2, 4, 9⟩)]
  · cases hb : get_standings (fetchOf [rowJson "AA" 1 4 9, rowJson "BB" 2 4 9]) with
    | error e =>
      have hok : snapshotIsOk (get_standings
          (fetchOf [rowJson "AA" 1 4 9, rowJson "BB" 2 4 9])) = true := by decide
      rw [hb] at hok
      simp [snapshotIsOk] at hok
    | ok snap =>
      obtain ⟨tbl, n, pr⟩ := snap
      have htbl : tbl = [("aa", ⟨1, 4, 9⟩), ("bb", ⟨2, 4, 9⟩)] := by
        have h3 : snapshotTable (get_standings
            (fetchOf [rowJson "AA" 1 4 9, rowJson "BB" 2 4 9])) =
            [("aa", ⟨1, 4, 9⟩), ("bb", ⟨2, 4, 9⟩)] := by decide
        rw [hb] at h3
        simpa [snapshotTable] using h3
      subst htbl
      exact empty_query_resolves_first.2 "PL" _ "aa" ⟨1, 4, 9⟩ [("bb", ⟨2, 4, 9⟩)] n pr hb
        (by decide)

/-- Claim C10 counterexample: the fetch succeeds with a non-empty table, the
first team parameter is empty, yet the request is answered 404 because the
second query matches no key. -/
theorem empty_query_cex :
    snapshotIsOk (get_standings (fetchOf [rowJson "AA" 1 4 9, rowJson "BB" 2 4 9])) = true
  ∧ snapshotTable (get_standings (fetchOf [rowJson "AA" 1 4 9, rowJson "BB" 2 4 9])) =
      [("aa", ⟨1, 4, 9⟩), ("bb", ⟨2, 4, 9⟩)]
  ∧ get_match_info "PL" "" "zzz" (fetchOf [rowJson "AA" 1 4 9, rowJson "BB" 2 4 9]) =
      ⟨404, .notFound "One or both teams were not found." ["aa", "bb"]⟩ := by
  decide

/-- Witness for C1 at a concrete regular fixture. -/
theorem match_importance_spec_refinement_witness :
    match_importance 8 12 20 (1/2) = " " ++ importance_spec 8 12 20 (1/2) :=
  match_importance_spec_refinement 8 12 20 (1/2)

/-- Witness for C5 at concrete progress 1/4. -/
theorem classifier_examples_20_witness :
    zone_size 20 = 4
  ∧ match_importance 1 2 20 (1/4) = " Top clash (" ++ season_stage (1/4) ++ ")" :=
  ⟨(classifier_examples_20 (1/4)).1, (classifier_examples_20 (1/4)).2.1⟩

/-- Witness for C6 at concrete positions. -/
theorem match_importance_symm_witness :
    match_importance 5 9 20 (1/2) = match_importance 9 5 20 (1/2) :=
  match_importance_symm 5 9 20 (1/2)

/-- Witness for C8: one concrete single-row fetch is answered with status 400. -/
theorem single_row_returns_error_witness :
    (get_match_info "PL" "a" "b" (fetchOf [rowJson "X" 1 5 5])).status = 400 := by
  obtain ⟨msg, h⟩ := single_row_returns_error "PL" "a" "b" (rowJson "X" 1 5 5)
  rw [h]
